import Mathlib

set_option maxRecDepth 100000

/-!
Shallow embedding of the barcode-detection pipeline of `bot.py`:
`detect_multi_barcodes` (lines 239-272), `try_decode_region` (274-281),
`rotate_image` (283-288), `decode_zbar_multi` (290-298),
`is_our_barcode` (300-302), and the image-decoding step of
`handle_photo` (315-321, exposed as `scan`).

External pixel-level primitives (OpenCV, numpy, pyzbar, pytesseract) are
modelled as fields of a `Vision` structure over abstract byte-stream and
image types, so theorems quantify over every possible behaviour of those
libraries while the pipeline's own control flow is embedded exactly.

Python's `set` is modelled by an insertion-ordered duplicate-free list
(`pySetAdd`), together with a `SetOrder` enumeration standing for the
hash-table iteration order that CPython's `list(s)` uses.  That order is
unspecified (it depends on the per-process string-hash seed, not on
insertion order), so any permutation of the elements is a sound model of
one run; `idOrder` and `revOrder` are two concrete realisable orders.

A byte-level refinement (`ZbarBytes`, `decode_zbar_multi_bytes`,
`try_decode_region_bytes`, `detect_multi_barcodes_bytes`, `scanE`)
additionally exposes the partial `b.data.decode("utf-8")` step of line
297, which raises UnicodeDecodeError on a non-UTF-8 symbol payload; the
String-valued model above describes the runs on which that step succeeds.
-/

/-- Bounding rectangle as returned by `cv2.boundingRect` in
`detect_multi_barcodes` line 259: corner `(x, y)`, width `w`, height `h`. -/
structure Rect where
  x : Nat
  y : Nat
  w : Nat
  h : Nat
deriving DecidableEq, Repr

/-- External image primitives used by `bot.py`, over a byte-stream type `B`
and an image (numpy array) type `I`.
Field by field:
`imdecode` models `np.frombuffer` + `cv2.imdecode` (line 318-319), which
yields `None` (here `none`) when the bytes are not a decodable raster;
`mean` models `np_img.mean()` (line 240, an exact rational for a uint8
image); `convertScaleAbs` models `cv2.convertScaleAbs(img, alpha=1.5,
beta=30)` (line 242); `cvtColorGray` models `cv2.cvtColor(..BGR2GRAY)`
(243); `gaussianBlur` models `cv2.GaussianBlur(gray,(3,3),0)` (244);
`thresholdOtsu` models `cv2.threshold(blur,0,255,BINARY+OTSU)` (245);
`invertMask` models `255 - thresh` (246); `morphCloseBig` models the
MORPH_CLOSE with an 11x4 rectangular kernel (248-249); `morphOpenSmall`
models the MORPH_OPEN with a 3x3 kernel (251-252); `findContours` models
`cv2.findContours(..RETR_EXTERNAL, CHAIN_APPROX_SIMPLE)` (254) with each
contour represented by its `cv2.boundingRect`, in discovery order (only
the bounding box of a contour is ever used); `crop` models the numpy
slice `np_img[y:y+h, x:x+w]` (261); `rotate` models
`cv2.getRotationMatrix2D((w//2,h//2), angle, 1.0)` followed by
`cv2.warpAffine(.., INTER_CUBIC, BORDER_REPLICATE)` (286-287), i.e. the
centre rotation with replicated borders; `cvtColorRGB` models
`cv2.cvtColor(..BGR2RGB)` + `PIL.Image.fromarray` (292); `pyzbar` models
`pyzbar.decode(pil, symbols=[CODE128, CODE39, EAN13, EAN8, QRCODE])` with
each result's `b.data.decode("utf-8")`, in pyzbar's returned order
(293-298); `image_to_string` models `pytesseract.image_to_string`, which
`bot.py` imports (line 15) but never calls in the detection pipeline. -/
structure Vision (B I : Type) where
  imdecode : B → Option I
  mean : I → ℚ
  convertScaleAbs : I → I
  cvtColorGray : I → I
  gaussianBlur : I → I
  thresholdOtsu : I → I
  invertMask : I → I
  morphCloseBig : I → I
  morphOpenSmall : I → I
  findContours : I → List Rect
  crop : I → Rect → I
  rotate : I → Nat → I
  cvtColorRGB : I → I
  pyzbar : I → List String
  image_to_string : I → String

/-- An enumeration order for Python sets of strings: `enum` is the order in
which `list(s)` (CPython hash-table iteration) lists the elements held in
insertion order `l`; it is always some permutation of the elements, but
which one depends on the process's randomized string-hash seed, never on
the insertion order itself. -/
structure SetOrder where
  enum : List String → List String
  perm : ∀ l, List.Perm (enum l) l

/-- The identity enumeration: one possible hash-iteration order. -/
def idOrder : SetOrder :=
  ⟨fun l => l, fun l => List.Perm.refl l⟩

/-- The reversing enumeration: another possible hash-iteration order (for a
two-element string set, both orders occur depending on the hash seed). -/
def revOrder : SetOrder :=
  ⟨fun l => l.reverse, fun l => l.reverse_perm⟩

/-- Python `s.add(x)` on a set held as an insertion-ordered
duplicate-free list. -/
def pySetAdd (s : List String) (x : String) : List String :=
  if x ∈ s then s else s ++ [x]

/-- Adding each element of `xs` in order, as the loop
`for c_ in multi: results.add(c_)` (`try_decode_region` lines 279-280). -/
def pySetAddAll (s : List String) (xs : List String) : List String :=
  xs.foldl pySetAdd s

/-- Embedding of `is_our_barcode` (lines 300-302):
`re.match(r'^AZT\d+', code)` succeeds exactly when the string starts with
`AZT` followed by at least one digit (all payloads of interest are ASCII;
the digit test is the ASCII one). -/
def is_our_barcode (code : String) : Bool :=
  match code.data with
  | 'A' :: 'Z' :: 'T' :: c :: _ => c.isDigit
  | _ => false

/-- The angle sweep `angles = range(0,360,10)` of
`detect_multi_barcodes` line 256. -/
def sweepAngles : List Nat :=
  (List.range 36).map (fun k => 10 * k)

/-- Embedding of `rotate_image` (lines 283-288): the whole body is the
OpenCV centre rotation with INTER_CUBIC and BORDER_REPLICATE, modelled by
the `rotate` primitive. -/
def rotate_image {B I : Type} (V : Vision B I) (cv_img : I) (angle : Nat) : I :=
  V.rotate cv_img angle

/-- Embedding of `decode_zbar_multi` (lines 290-298): BGR-to-RGB + PIL
conversion followed by the pyzbar decode restricted to the five symbol
types, collecting every payload.  The String-valued `pyzbar` primitive
models the successful runs of the decode loop; the partial
`b.data.decode("utf-8")` step at line 297, which raises
UnicodeDecodeError on a non-UTF-8 payload, is modelled separately at
byte level by `decode_zbar_multi_bytes` below. -/
def decode_zbar_multi {B I : Type} (V : Vision B I) (cv_img : I) : List String :=
  V.pyzbar (V.cvtColorRGB cv_img)

/-- Embedding of `try_decode_region` (lines 274-281): start from an empty
set, for every angle rotate and decode, add all payloads, and return
`list(results)` in the set-enumeration order. -/
def try_decode_region {B I : Type} (V : Vision B I) (O : SetOrder)
    (np_img : I) (angles : List Nat) : List String :=
  O.enum (angles.foldl
    (fun results angle => pySetAddAll results (decode_zbar_multi V (rotate_image V np_img angle))) [])

/-- Brightening step of `detect_multi_barcodes` (lines 240-242): if the
mean luminance is below 60, rescale with `cv2.convertScaleAbs`. -/
def preBrightened {B I : Type} (V : Vision B I) (np_img : I) : I :=
  if V.mean np_img < 60 then V.convertScaleAbs np_img else np_img

/-- Binary-mask pipeline of `detect_multi_barcodes` (lines 243-252):
grayscale, Gaussian blur, Otsu threshold, inversion, big close, small
open, applied to the (possibly brightened) image. -/
def binMask {B I : Type} (V : Vision B I) (img : I) : I :=
  V.morphOpenSmall (V.morphCloseBig (V.invertMask (V.thresholdOtsu (V.gaussianBlur (V.cvtColorGray img)))))

/-- Contours found by `detect_multi_barcodes` line 254 (each represented by
its bounding rectangle), computed on the mask of the brightened image. -/
def contoursOf {B I : Type} (V : Vision B I) (np_img : I) : List Rect :=
  V.findContours (binMask V (preBrightened V np_img))

/-- The filtering accumulation loop
`for cd_ in decodes: if is_our_barcode(cd_): found_codes.add(cd_)`
(`detect_multi_barcodes` lines 263-265 and again 268-270). -/
def addAccepted (found : List String) (decodes : List String) : List String :=
  decodes.foldl (fun fc cd => if is_our_barcode cd then pySetAdd fc cd else fc) found

/-- Embedding of `detect_multi_barcodes` (lines 239-272): brighten if dark,
build the binary mask, find contours, decode every region whose bounding
box has `w>20 and h>20` across the angle sweep keeping payloads that pass
`is_our_barcode`, decode the entire image the same way, and return
`list(found_codes)` in set-enumeration order. -/
def detect_multi_barcodes {B I : Type} (V : Vision B I) (O : SetOrder) (np_img : I) : List String :=
  let img := preBrightened V np_img
  let contours := contoursOf V np_img
  let found1 := contours.foldl
    (fun found r =>
      if r.w > 20 ∧ r.h > 20 then
        addAccepted found (try_decode_region V O (V.crop img r) sweepAngles)
      else found) []
  let entire := try_decode_region V O img sweepAngles
  O.enum (addAccepted found1 entire)

/-- Error value for a byte stream that is not a decodable raster. -/
inductive InvalidImage where
  | invalid
deriving DecidableEq, Repr

/-- The scan entry point, embedding the pipeline part of `handle_photo`
(lines 315-321): decode the downloaded bytes with
`np.frombuffer` + `cv2.imdecode` and run `detect_multi_barcodes`.
`cv2.imdecode` yields `None` for undecodable bytes, on which the call
fails at once (`None.mean()` raises before any result is produced);
that fatal outcome is embedded as the `InvalidImage` error branch. -/
def scan {B I : Type} (V : Vision B I) (O : SetOrder) (image_bytes : B) :
    Except InvalidImage (List String) :=
  match V.imdecode image_bytes with
  | none => Except.error InvalidImage.invalid
  | some cv_img => Except.ok (detect_multi_barcodes V O cv_img)

/-- Byte-level refinement of the symbol decoder, exposing the partial
step of `decode_zbar_multi` line 297.  `data` models the raw `b.data`
byte strings pyzbar returns for the detected symbols of an (RGB) image,
in pyzbar's order; `utf8` models Python's `bytes.decode("utf-8")`, which
returns a string for valid UTF-8 input and raises UnicodeDecodeError
otherwise — the raise is modelled as `none`.  (A lone `0xFF` byte, for
example, is never valid UTF-8, yet CODE128 and QR payloads may carry
arbitrary bytes.) -/
structure ZbarBytes (I : Type) where
  data : I → List (List Nat)
  utf8 : List Nat → Option String

/-- Byte-level embedding of `decode_zbar_multi` (lines 290-298): the loop
`for b in barcodes: out.append(b.data.decode("utf-8"))` raises at the
first non-UTF-8 payload, so the whole call yields `none` in that case
(`List.mapM` over `Option` fails at the first `none`, left to right). -/
def decode_zbar_multi_bytes {B I : Type} (V : Vision B I) (Z : ZbarBytes I)
    (cv_img : I) : Option (List String) :=
  (Z.data (V.cvtColorRGB cv_img)).mapM Z.utf8

/-- Byte-level embedding of `try_decode_region` (lines 274-281): the loop
body calls `decode_zbar_multi`, so an uncaught UnicodeDecodeError at any
angle aborts the whole call (`foldlM` over `Option` stops at the first
failing decode); on success the behaviour is that of
`try_decode_region`. -/
def try_decode_region_bytes {B I : Type} (V : Vision B I) (Z : ZbarBytes I)
    (O : SetOrder) (np_img : I) (angles : List Nat) : Option (List String) :=
  (angles.foldlM
    (fun results angle =>
      (decode_zbar_multi_bytes V Z (rotate_image V np_img angle)).map (pySetAddAll results))
    ([] : List String)).map O.enum

/-- Byte-level embedding of `detect_multi_barcodes` (lines 239-272): the
region loop and the whole-image call each invoke `try_decode_region`, so
a UnicodeDecodeError raised there propagates out of the function
(`none`); the filtering and set accumulation are unchanged. -/
def detect_multi_barcodes_bytes {B I : Type} (V : Vision B I) (Z : ZbarBytes I)
    (O : SetOrder) (np_img : I) : Option (List String) := do
  let img := preBrightened V np_img
  let contours := contoursOf V np_img
  let found1 ← contours.foldlM
    (fun found r =>
      if r.w > 20 ∧ r.h > 20 then
        (try_decode_region_bytes V Z O (V.crop img r) sweepAngles).map (addAccepted found)
      else pure found) []
  let entire ← try_decode_region_bytes V Z O img sweepAngles
  pure (O.enum (addAccepted found1 entire))

/-- Fatal outcomes of one scan call: the byte stream is not a decodable
raster (`cv2.imdecode` gives `None` and the call dies on `None.mean()`),
or a decoded symbol payload is not valid UTF-8 and
`b.data.decode("utf-8")` at line 297 raises UnicodeDecodeError, which
nothing in the pipeline catches. -/
inductive PyFatal where
  | invalidImage
  | unicodeDecodeError
deriving DecidableEq, Repr

/-- The scan entry point over the byte-level decoder model: embedding of
the pipeline part of `handle_photo` (lines 315-321) in which the partial
UTF-8 step of line 297 is visible.  Undecodable bytes fail with
`invalidImage`; a non-UTF-8 symbol payload anywhere in the sweep fails
with `unicodeDecodeError`; otherwise the detection result is returned. -/
def scanE {B I : Type} (V : Vision B I) (Z : ZbarBytes I) (O : SetOrder)
    (image_bytes : B) : Except PyFatal (List String) :=
  match V.imdecode image_bytes with
  | none => Except.error PyFatal.invalidImage
  | some cv_img =>
    match detect_multi_barcodes_bytes V Z O cv_img with
    | none => Except.error PyFatal.unicodeDecodeError
    | some out => Except.ok out

/-- Region-keep rule exactly as the source writes it
(`if w>20 and h>20`, line 260), as a Boolean predicate. -/
def region_survives (r : Rect) : Bool :=
  decide (20 < r.w) && decide (20 < r.h)

/-- Region-keep rule as the SPEC words it, for comparison with
`region_survives`: a box is discarded when its width is below about 20 px
or its height is below about 15 px (default `min_region_size` ~20x15 px),
so it survives when width is at least 20 and height is at least 15. -/
def spec_min_region_keep (r : Rect) : Bool :=
  decide (20 ≤ r.w) && decide (15 ≤ r.h)

/-- Concrete oracle over `B := Nat`, `I := Nat` in which the symbol decoder
reads `AZT1` from every image: used to witness membership facts. -/
def Vwhole : Vision Nat Nat :=
  ⟨some, fun _ => 128, id, id, id, id, id, id, id,
   fun _ => [], fun i _ => i, fun i _ => i, id, fun _ => ["AZT1"], fun _ => ""⟩

/-- Concrete oracle whose byte stream never decodes as a raster. -/
def Vnone : Vision Nat Nat :=
  ⟨fun _ => none, fun _ => 128, id, id, id, id, id, id, id,
   fun _ => [], fun i _ => i, fun i _ => i, id, fun _ => [], fun _ => ""⟩

/-- Concrete oracle for a frame with no scannable symbol (the symbol
decoder returns nothing anywhere) on which an OCR engine would read the
printed text `AZT30001`. -/
def Vempty : Vision Nat Nat :=
  ⟨some, fun _ => 128, id, id, id, id, id, id, id,
   fun _ => [], fun i _ => i, fun i _ => i, id, fun _ => [], fun _ => "AZT30001"⟩

/-- Concrete oracle in which the whole-image decode surfaces both payloads
`AZT10013025` and `1234567890128`. -/
def Vboth : Vision Nat Nat :=
  ⟨some, fun _ => 128, id, id, id, id, id, id, id,
   fun _ => [], fun i _ => i, fun i _ => i, id,
   fun _ => ["AZT10013025", "1234567890128"], fun _ => ""⟩

/-- Concrete oracle for a frame with two upright side-by-side barcodes:
blob discovery finds the left region (crop `1`, decoding `AZT1001`) before
the right region (crop `2`, decoding `AZT1002`); the whole frame (image
`0`) decodes to nothing. -/
def Vpair : Vision Nat Nat :=
  ⟨some, fun _ => 128, id, id, id, id, id, id, id,
   fun _ => [⟨0, 0, 30, 30⟩, ⟨100, 0, 30, 30⟩],
   fun _ r => if r.x = 0 then 1 else 2, fun i _ => i, id,
   fun i => if i = 1 then ["AZT1001"] else if i = 2 then ["AZT1002"] else [],
   fun _ => ""⟩

/-- Concrete oracle for a frame whose only blob has a 30x16 bounding box
(width 30, height 16); its crop (image `1`) would decode to `AZT9`, while
the whole frame (image `0`) decodes to nothing. -/
def Vsmall : Vision Nat Nat :=
  ⟨some, fun _ => 128, id, id, id, id, id, id, id,
   fun _ => [⟨0, 0, 30, 16⟩], fun _ _ => 1, fun i _ => i, id,
   fun i => if i = 1 then ["AZT9"] else [], fun _ => ""⟩

/-- Concrete rotation-model oracle: an image is identified with the
orientation (in degrees) of the single barcode it carries, rotation adds
angles modulo 360, and the decoder reads `AZT2002` exactly at the upright
orientation.  Image `0` is the clean single-barcode image and image `90`
its 90-degree-rotated copy. -/
def Vrot : Vision Nat Nat :=
  ⟨some, fun _ => 128, id, id, id, id, id, id, id,
   fun _ => [], fun i _ => i, fun i a => (i + a) % 360, id,
   fun i => if i = 0 then ["AZT2002"] else [], fun _ => ""⟩

/-- Byte-level decoder fixture agreeing with `Vwhole`: every detected
symbol carries the bytes `65, 90, 84, 49` of `AZT1`, which are valid
UTF-8. -/
def Zok : ZbarBytes Nat :=
  ⟨fun _ => [[65, 90, 84, 49]],
   fun bs => if bs = [65, 90, 84, 49] then some "AZT1" else none⟩

/-- Byte-level decoder fixture for a frame carrying one symbol whose
payload is the single byte `0xFF` (255), which is not valid UTF-8 in any
position, so Python's `bytes.decode("utf-8")` raises UnicodeDecodeError
on it. -/
def Zbad : ZbarBytes Nat :=
  ⟨fun _ => [[255]], fun bs => if bs = [255] then none else some ""⟩

/-- Concrete oracle for a raster-decodable frame used with the byte-level
decoder fixtures (the String-valued `pyzbar` field is not consulted by
the byte-level pipeline). -/
def Vbinary : Vision Nat Nat :=
  ⟨some, fun _ => 128, id, id, id, id, id, id, id,
   fun _ => [], fun i _ => i, fun i _ => i, id, fun _ => [], fun _ => ""⟩

/-- Replace only the OCR-engine primitive of an oracle, leaving every
primitive the detection pipeline actually calls untouched: used to state
that detection is independent of any OCR engine. -/
def setOcr {B I : Type} (V : Vision B I) (f : I → String) : Vision B I :=
  ⟨V.imdecode, V.mean, V.convertScaleAbs, V.cvtColorGray, V.gaussianBlur,
   V.thresholdOtsu, V.invertMask, V.morphCloseBig, V.morphOpenSmall,
   V.findContours, V.crop, V.rotate, V.cvtColorRGB, V.pyzbar, f⟩

/-- A payload `y` is contributed by the whole-image pass: some sweep angle
rotates the (possibly brightened) frame so that the symbol decoder
returns `y` among its payloads. -/
def wholeHit {B I : Type} (V : Vision B I) (np_img : I) (y : String) : Prop :=
  ∃ a ∈ sweepAngles, y ∈ decode_zbar_multi V (rotate_image V (preBrightened V np_img) a)

/-- A payload `y` is contributed by the region pass: some discovered
contour survives the `w>20 and h>20` size gate and its crop decodes to
`y` at some sweep angle. -/
def regionHit {B I : Type} (V : Vision B I) (np_img : I) (y : String) : Prop :=
  ∃ r ∈ contoursOf V np_img, (r.w > 20 ∧ r.h > 20) ∧
    ∃ a ∈ sweepAngles, y ∈ decode_zbar_multi V (rotate_image V (V.crop (preBrightened V np_img) r) a)


/-- Membership in a Python set after one `add`. -/
theorem mem_pySetAdd {s : List String} {x y : String} :
    y ∈ pySetAdd s x ↔ y ∈ s ∨ y = x := by
  by_cases hx : x ∈ s
  · simp only [pySetAdd, if_pos hx]
    constructor
    · exact Or.inl
    · rintro (h | rfl)
      · exact h
      · exact hx
  · simp [pySetAdd, if_neg hx]

/-- One `add` keeps the insertion list duplicate-free. -/
theorem nodup_pySetAdd {s : List String} {x : String} (hs : s.Nodup) :
    (pySetAdd s x).Nodup := by
  by_cases hx : x ∈ s
  · simpa [pySetAdd, if_pos hx] using hs
  · simp [pySetAdd, if_neg hx, List.nodup_append, hs, hx]

/-- Membership in a Python set after adding every element of a list. -/
theorem mem_pySetAddAll {s : List String} {xs : List String} {y : String} :
    y ∈ pySetAddAll s xs ↔ y ∈ s ∨ y ∈ xs := by
  induction xs generalizing s with
  | nil => simp [pySetAddAll]
  | cons x xs ih =>
    simp only [pySetAddAll, List.foldl_cons, List.mem_cons]
    rw [show (List.foldl pySetAdd (pySetAdd s x) xs) = pySetAddAll (pySetAdd s x) xs from rfl,
      ih, mem_pySetAdd]
    tauto

/-- Adding every element of a list keeps the insertion list
duplicate-free. -/
theorem nodup_pySetAddAll {s : List String} {xs : List String} (hs : s.Nodup) :
    (pySetAddAll s xs).Nodup := by
  induction xs generalizing s with
  | nil => simpa [pySetAddAll] using hs
  | cons x xs ih =>
    simp only [pySetAddAll, List.foldl_cons]
    exact ih (nodup_pySetAdd hs)

/-- Membership after the filtering accumulation loop: an element is there
exactly when it was already there, or it occurs in the decoded payloads
and passes `is_our_barcode`. -/
theorem mem_addAccepted {found : List String} {decodes : List String} {y : String} :
    y ∈ addAccepted found decodes ↔ y ∈ found ∨ (y ∈ decodes ∧ is_our_barcode y = true) := by
  induction decodes generalizing found with
  | nil => simp [addAccepted]
  | cons cd cds ih =>
    simp only [addAccepted, List.foldl_cons, List.mem_cons]
    rw [show (List.foldl (fun fc cd => if is_our_barcode cd then pySetAdd fc cd else fc)
        (if is_our_barcode cd then pySetAdd found cd else found) cds) =
        addAccepted (if is_our_barcode cd then pySetAdd found cd else found) cds from rfl, ih]
    by_cases hcd : is_our_barcode cd = true
    · rw [if_pos hcd, mem_pySetAdd]
      constructor
      · rintro ((h | rfl) | h)
        · exact Or.inl h
        · exact Or.inr ⟨Or.inl rfl, hcd⟩
        · exact Or.inr ⟨Or.inr h.1, h.2⟩
      · rintro (h | ⟨(rfl | h), hy⟩)
        · exact Or.inl (Or.inl h)
        · exact Or.inl (Or.inr rfl)
        · exact Or.inr ⟨h, hy⟩
    · rw [if_neg hcd]
      constructor
      · rintro (h | h)
        · exact Or.inl h
        · exact Or.inr ⟨Or.inr h.1, h.2⟩
      · rintro (h | ⟨(rfl | h), hy⟩)
        · exact Or.inl h
        · exact absurd hy hcd
        · exact Or.inr ⟨h, hy⟩

/-- The filtering accumulation loop keeps the insertion list
duplicate-free. -/
theorem nodup_addAccepted {found : List String} {decodes : List String} (hf : found.Nodup) :
    (addAccepted found decodes).Nodup := by
  induction decodes generalizing found with
  | nil => simpa [addAccepted] using hf
  | cons cd cds ih =>
    simp only [addAccepted, List.foldl_cons]
    by_cases hcd : is_our_barcode cd = true
    · rw [if_pos hcd]
      exact ih (nodup_pySetAdd hf)
    · rw [if_neg hcd]
      exact ih hf

/-- Membership in the angle-sweep accumulation of `try_decode_region`:
an element is collected exactly when it was in the initial set or some
angle decodes to it. -/
theorem mem_angle_foldl {B I : Type} (V : Vision B I) (img : I)
    (angles : List Nat) (init : List String) (y : String) :
    y ∈ angles.foldl
      (fun results angle => pySetAddAll results (decode_zbar_multi V (rotate_image V img angle))) init ↔
    y ∈ init ∨ ∃ a ∈ angles, y ∈ decode_zbar_multi V (rotate_image V img a) := by
  induction angles generalizing init with
  | nil => simp
  | cons a as ih =>
    simp only [List.foldl_cons]
    rw [ih, mem_pySetAddAll]
    simp only [List.mem_cons]
    constructor
    · rintro ((h | h) | ⟨b, hb, hy⟩)
      · exact Or.inl h
      · exact Or.inr ⟨a, Or.inl rfl, h⟩
      · exact Or.inr ⟨b, Or.inr hb, hy⟩
    · rintro (h | ⟨b, (rfl | hb), hy⟩)
      · exact Or.inl (Or.inl h)
      · exact Or.inl (Or.inr hy)
      · exact Or.inr ⟨b, hb, hy⟩

/-- The angle-sweep accumulation keeps the insertion list
duplicate-free. -/
theorem nodup_angle_foldl {B I : Type} (V : Vision B I) (img : I)
    (angles : List Nat) (init : List String) (hi : init.Nodup) :
    (angles.foldl
      (fun results angle => pySetAddAll results (decode_zbar_multi V (rotate_image V img angle))) init).Nodup := by
  induction angles generalizing init with
  | nil => simpa using hi
  | cons a as ih =>
    simp only [List.foldl_cons]
    exact ih _ (nodup_pySetAddAll hi)

/-- Membership in the list returned by `try_decode_region`: exactly the
payloads decoded at some angle of the sweep. -/
theorem mem_try_decode_region {B I : Type} (V : Vision B I) (O : SetOrder)
    (img : I) (angles : List Nat) (y : String) :
    y ∈ try_decode_region V O img angles ↔
    ∃ a ∈ angles, y ∈ decode_zbar_multi V (rotate_image V img a) := by
  unfold try_decode_region
  rw [(O.perm _).mem_iff, mem_angle_foldl]
  simp

/-- The list returned by `try_decode_region` is duplicate-free. -/
theorem nodup_try_decode_region {B I : Type} (V : Vision B I) (O : SetOrder)
    (img : I) (angles : List Nat) :
    (try_decode_region V O img angles).Nodup := by
  unfold try_decode_region
  exact ((O.perm _).nodup_iff).mpr (nodup_angle_foldl V img angles [] List.nodup_nil)

/-- Membership in the region-loop accumulation of `detect_multi_barcodes`:
an element is collected exactly when it was already collected, or it
passes the payload filter and some contour of the traversed list survives
the size gate and decodes to it. -/
theorem mem_region_foldl {B I : Type} (V : Vision B I) (O : SetOrder) (img : I)
    (rs : List Rect) (init : List String) (y : String) :
    y ∈ rs.foldl
      (fun found r =>
        if r.w > 20 ∧ r.h > 20 then
          addAccepted found (try_decode_region V O (V.crop img r) sweepAngles)
        else found) init ↔
    y ∈ init ∨ (is_our_barcode y = true ∧ ∃ r ∈ rs, (r.w > 20 ∧ r.h > 20) ∧
      ∃ a ∈ sweepAngles, y ∈ decode_zbar_multi V (rotate_image V (V.crop img r) a)) := by
  induction rs generalizing init with
  | nil => simp
  | cons r rs ih =>
    simp only [List.foldl_cons]
    rw [ih]
    by_cases hr : r.w > 20 ∧ r.h > 20
    · rw [if_pos hr, mem_addAccepted, mem_try_decode_region]
      constructor
      · rintro ((h | ⟨hy, hok⟩) | ⟨hok, r', hr', hbig, hy⟩)
        · exact Or.inl h
        · exact Or.inr ⟨hok, r, List.mem_cons_self r rs, hr, hy⟩
        · exact Or.inr ⟨hok, r', List.mem_cons_of_mem r hr', hbig, hy⟩
      · rintro (h | ⟨hok, r', hr', hbig, hy⟩)
        · exact Or.inl (Or.inl h)
        · rcases List.mem_cons.mp hr' with rfl | hr'
          · exact Or.inl (Or.inr ⟨hy, hok⟩)
          · exact Or.inr ⟨hok, r', hr', hbig, hy⟩
    · rw [if_neg hr]
      constructor
      · rintro (h | ⟨hok, r', hr', hbig, hy⟩)
        · exact Or.inl h
        · exact Or.inr ⟨hok, r', List.mem_cons_of_mem r hr', hbig, hy⟩
      · rintro (h | ⟨hok, r', hr', hbig, hy⟩)
        · exact Or.inl h
        · rcases List.mem_cons.mp hr' with rfl | hr'
          · exact absurd hbig hr
          · exact Or.inr ⟨hok, r', hr', hbig, hy⟩

/-- The region-loop accumulation keeps the insertion list
duplicate-free. -/
theorem nodup_region_foldl {B I : Type} (V : Vision B I) (O : SetOrder) (img : I)
    (rs : List Rect) (init : List String) (hi : init.Nodup) :
    (rs.foldl
      (fun found r =>
        if r.w > 20 ∧ r.h > 20 then
          addAccepted found (try_decode_region V O (V.crop img r) sweepAngles)
        else found) init).Nodup := by
  induction rs generalizing init with
  | nil => simpa using hi
  | cons r rs ih =>
    simp only [List.foldl_cons]
    by_cases hr : r.w > 20 ∧ r.h > 20
    · rw [if_pos hr]
      exact ih _ (nodup_addAccepted hi)
    · rw [if_neg hr]
      exact ih _ hi

/-- Master membership characterisation of `detect_multi_barcodes`:
a string is in the returned list exactly when it passes the hard-coded
payload filter and is decoded either from a surviving region or from the
whole image.  The right-hand side does not depend on the set-enumeration
order. -/
theorem mem_detect_multi_barcodes {B I : Type} (V : Vision B I) (O : SetOrder)
    (np_img : I) (y : String) :
    y ∈ detect_multi_barcodes V O np_img ↔
    is_our_barcode y = true ∧ (regionHit V np_img y ∨ wholeHit V np_img y) := by
  unfold detect_multi_barcodes regionHit wholeHit
  rw [(O.perm _).mem_iff, mem_addAccepted, mem_try_decode_region, mem_region_foldl]
  simp only [List.not_mem_nil, false_or]
  constructor
  · rintro (⟨hok, hreg⟩ | ⟨hwhole, hok⟩)
    · exact ⟨hok, Or.inl hreg⟩
    · exact ⟨hok, Or.inr hwhole⟩
  · rintro ⟨hok, hreg | hwhole⟩
    · exact Or.inl ⟨hok, hreg⟩
    · exact Or.inr ⟨hwhole, hok⟩

/-- The list returned by `detect_multi_barcodes` is duplicate-free. -/
theorem nodup_detect_multi_barcodes {B I : Type} (V : Vision B I) (O : SetOrder)
    (np_img : I) : (detect_multi_barcodes V O np_img).Nodup := by
  unfold detect_multi_barcodes
  exact ((O.perm _).nodup_iff).mpr
    (nodup_addAccepted (nodup_region_foldl V O _ _ [] List.nodup_nil))

/-- The source's region-keep test as a Boolean equals the `if` condition
`w>20 and h>20` of `detect_multi_barcodes` line 260. -/
theorem region_survives_iff (r : Rect) :
    region_survives r = true ↔ (r.w > 20 ∧ r.h > 20) := by
  simp [region_survives]

/-- The region loop with its inline size gate equals the same loop run
over only the contours that pass the gate. -/
theorem region_foldl_filter {B I : Type} (V : Vision B I) (O : SetOrder) (img : I)
    (rs : List Rect) (init : List String) :
    rs.foldl
      (fun found r =>
        if r.w > 20 ∧ r.h > 20 then
          addAccepted found (try_decode_region V O (V.crop img r) sweepAngles)
        else found) init =
    (rs.filter region_survives).foldl
      (fun found r => addAccepted found (try_decode_region V O (V.crop img r) sweepAngles)) init := by
  induction rs generalizing init with
  | nil => rfl
  | cons r rs ih =>
    simp only [List.foldl_cons, List.filter_cons]
    by_cases hr : r.w > 20 ∧ r.h > 20
    · rw [if_pos hr, if_pos ((region_survives_iff r).mpr hr), List.foldl_cons, ih]
    · rw [if_neg hr, if_neg (by simpa [region_survives_iff r] using hr), ih]

/-- The ten-degree sweep is closed under shifting by 90 degrees. -/
theorem sweep_closed : ∀ a ∈ sweepAngles, (a + 90) % 360 ∈ sweepAngles := by decide

/-- Every sweep angle is reached by shifting some sweep angle by
90 degrees. -/
theorem sweep_surj : ∀ b ∈ sweepAngles, ∃ a ∈ sweepAngles, (a + 90) % 360 = b := by decide

/-- C1 (amended): the detection pipeline of `bot.py` contains no OCR stage
at all.  Its output is unchanged under any replacement of the OCR-engine
primitive, and when the union of the region pass and the whole-image pass
is empty (the symbol decoder returns no payload on any image) the scan
result is the empty list rather than an OCR extraction; in particular the
OCR stage is never invoked, whether symbol decoding is empty or not. -/
theorem c1_no_ocr_stage {B I : Type} (V : Vision B I) (O : SetOrder) (np_img : I)
    (f : I → String) :
    detect_multi_barcodes (setOcr V f) O np_img = detect_multi_barcodes V O np_img ∧
    ((∀ i, decode_zbar_multi V i = []) → detect_multi_barcodes V O np_img = []) := by
  refine ⟨rfl, ?_⟩
  intro h
  refine List.eq_nil_iff_forall_not_mem.mpr fun y hy => ?_
  rcases (mem_detect_multi_barcodes V O np_img y).mp hy with ⟨hok, hreg | hwhole⟩
  · rcases hreg with ⟨r, hr, hbig, a, ha, hy'⟩
    rw [h] at hy'
    exact absurd hy' (List.not_mem_nil y)
  · rcases hwhole with ⟨a, ha, hy'⟩
    rw [h] at hy'
    exact absurd hy' (List.not_mem_nil y)

/-- C1 witness: on the concrete no-symbol frame, swapping in an arbitrary
OCR engine changes nothing, and the result is empty. -/
theorem c1_witness :
    detect_multi_barcodes (setOcr Vempty (fun _ => "ANYTEXT")) idOrder 0 =
      detect_multi_barcodes Vempty idOrder 0 ∧
    detect_multi_barcodes Vempty idOrder 0 = [] :=
  ⟨(c1_no_ocr_stage Vempty idOrder 0 (fun _ => "ANYTEXT")).1,
   (c1_no_ocr_stage Vempty idOrder 0 (fun _ => "ANYTEXT")).2 (fun _ => rfl)⟩

/-- C1 counterexample: a frame whose symbol decoder yields nothing
anywhere (the `Vempty` oracle decodes every image to `[]`) while an OCR
engine would read the printed text `AZT30001`; the claim says the final
scan result is `["AZT30001"]`, but the code returns `[]`: no OCR fallback
is ever invoked. -/
theorem c1_counterexample :
    Vempty.image_to_string 0 = "AZT30001" ∧
    decode_zbar_multi Vempty 0 = [] ∧
    detect_multi_barcodes Vempty idOrder 0 = [] ∧
    detect_multi_barcodes Vempty idOrder 0 ≠ ["AZT30001"] := by decide

/-- C2 (amended): there is no per-call acceptance-pattern configuration;
the hard-coded filter `is_our_barcode` is always applied, so the payload
`1234567890128` never appears in any scan result, while a decoded
`AZT10013025` (here: surfaced by the whole-image pass) is always kept. -/
theorem c2_hardcoded_filter {B I : Type} (V : Vision B I) (O : SetOrder) (np_img : I) :
    "1234567890128" ∉ detect_multi_barcodes V O np_img ∧
    (wholeHit V np_img "AZT10013025" → "AZT10013025" ∈ detect_multi_barcodes V O np_img) := by
  constructor
  · intro hy
    exact absurd ((mem_detect_multi_barcodes V O np_img _).mp hy).1 (by decide)
  · intro h
    exact (mem_detect_multi_barcodes V O np_img _).mpr ⟨by decide, Or.inr h⟩

/-- C2 witness: on the concrete frame whose decoder surfaces both
payloads, `1234567890128` is absent and `AZT10013025` present. -/
theorem c2_witness :
    "1234567890128" ∉ detect_multi_barcodes Vboth idOrder 0 ∧
    "AZT10013025" ∈ detect_multi_barcodes Vboth idOrder 0 :=
  ⟨(c2_hardcoded_filter Vboth idOrder 0).1,
   (c2_hardcoded_filter Vboth idOrder 0).2 ⟨0, by decide, by decide⟩⟩

/-- C2 counterexample: with no pattern configured anywhere (the code has
no such configuration), a frame decoding to both `AZT10013025` and
`1234567890128` yields only `["AZT10013025"]`: the non-matching payload
is dropped even though the claim says both are kept by default. -/
theorem c2_counterexample :
    detect_multi_barcodes Vboth idOrder 0 = ["AZT10013025"] ∧
    "1234567890128" ∉ detect_multi_barcodes Vboth idOrder 0 := by decide

/-- C3 (amended): the scan result's membership is fully determined (the
accepted region-pass and whole-image payloads), but its order is the
unspecified Python set-enumeration order of `list(found_codes)`: results
under any two enumeration orders are permutations of each other, and no
first-occurrence or region-before-whole-image order is guaranteed. -/
theorem c3_order_unspecified {B I : Type} (V : Vision B I) (O O' : SetOrder) (np_img : I) :
    List.Perm (detect_multi_barcodes V O np_img) (detect_multi_barcodes V O' np_img) := by
  rw [List.perm_ext_iff_of_nodup (nodup_detect_multi_barcodes V O np_img)
    (nodup_detect_multi_barcodes V O' np_img)]
  intro y
  rw [mem_detect_multi_barcodes, mem_detect_multi_barcodes]

/-- C3 counterexample: the frame with two upright side-by-side barcodes
discovered left to right.  Under one realisable set-enumeration order the
result is `["AZT1001", "AZT1002"]`, under another it is
`["AZT1002", "AZT1001"]`: the code does not guarantee the claimed
left-to-right first-seen order, because `list(found_codes)` iterates a
hash set. -/
theorem c3_counterexample :
    detect_multi_barcodes Vpair idOrder 0 = ["AZT1001", "AZT1002"] ∧
    detect_multi_barcodes Vpair revOrder 0 = ["AZT1002", "AZT1001"] ∧
    detect_multi_barcodes Vpair revOrder 0 ≠ ["AZT1001", "AZT1002"] := by decide

/-- When the byte-level decode succeeds everywhere and agrees with the
String-level decoder, the byte-level angle sweep succeeds and computes
exactly what `try_decode_region` computes. -/
theorem try_decode_region_bytes_eq {B I : Type} (V : Vision B I) (Z : ZbarBytes I)
    (O : SetOrder) (np_img : I) (angles : List Nat)
    (hz : ∀ j, decode_zbar_multi_bytes V Z j = some (decode_zbar_multi V j)) :
    try_decode_region_bytes V Z O np_img angles =
      some (try_decode_region V O np_img angles) := by
  unfold try_decode_region_bytes try_decode_region
  suffices h : ∀ init : List String,
      (angles.foldlM
        (fun results angle =>
          (decode_zbar_multi_bytes V Z (rotate_image V np_img angle)).map (pySetAddAll results))
        init) =
      some (angles.foldl
        (fun results angle => pySetAddAll results (decode_zbar_multi V (rotate_image V np_img angle)))
        init) by
    rw [h []]
    rfl
  induction angles with
  | nil => intro init; rfl
  | cons a as ih =>
    intro init
    rw [List.foldlM_cons, List.foldl_cons, hz (rotate_image V np_img a)]
    exact ih (pySetAddAll init (decode_zbar_multi V (rotate_image V np_img a)))

/-- When the byte-level decode succeeds everywhere and agrees with the
String-level decoder, the byte-level detection succeeds and computes
exactly what `detect_multi_barcodes` computes. -/
theorem detect_multi_barcodes_bytes_eq {B I : Type} (V : Vision B I) (Z : ZbarBytes I)
    (O : SetOrder) (np_img : I)
    (hz : ∀ j, decode_zbar_multi_bytes V Z j = some (decode_zbar_multi V j)) :
    detect_multi_barcodes_bytes V Z O np_img =
      some (detect_multi_barcodes V O np_img) := by
  unfold detect_multi_barcodes_bytes detect_multi_barcodes
  have hfold : ∀ (rs : List Rect) (init : List String),
      (rs.foldlM
        (fun found r =>
          if r.w > 20 ∧ r.h > 20 then
            (try_decode_region_bytes V Z O (V.crop (preBrightened V np_img) r) sweepAngles).map
              (addAccepted found)
          else pure found) init) =
      some (rs.foldl
        (fun found r =>
          if r.w > 20 ∧ r.h > 20 then
            addAccepted found (try_decode_region V O (V.crop (preBrightened V np_img) r) sweepAngles)
          else found) init) := by
    intro rs
    induction rs with
    | nil => intro init; rfl
    | cons r rs ih =>
      intro init
      rw [List.foldlM_cons, List.foldl_cons]
      by_cases hr : r.w > 20 ∧ r.h > 20
      · rw [if_pos hr, if_pos hr, try_decode_region_bytes_eq V Z O _ sweepAngles hz]
        exact ih _
      · rw [if_neg hr, if_neg hr]
        exact ih init
  simp only [bind, Option.bind, hfold (contoursOf V np_img) [],
    try_decode_region_bytes_eq V Z O (preBrightened V np_img) sweepAngles hz]
  rfl

/-- C4 (amended): if the byte stream does not decode as a raster the scan
call fails immediately with `InvalidImage` (no retry, nothing else is
attempted).  For raster-decodable input the call terminates and returns
the `ScanResult` PROVIDED every decoded symbol payload is valid UTF-8 (the
byte-level decoder agrees with the String-level one everywhere); a
non-UTF-8 payload instead raises UnicodeDecodeError out of the call, as
`c4_counterexample` exhibits. -/
theorem c4_scan_outcomes {B I : Type} (V : Vision B I) (Z : ZbarBytes I)
    (O : SetOrder) (b : B) :
    (V.imdecode b = none → scanE V Z O b = Except.error PyFatal.invalidImage) ∧
    ((∀ j, decode_zbar_multi_bytes V Z j = some (decode_zbar_multi V j)) →
      ∀ i, V.imdecode b = some i →
        scanE V Z O b = Except.ok (detect_multi_barcodes V O i)) := by
  constructor
  · intro h
    simp [scanE, h]
  · intro hz i h
    simp [scanE, h, detect_multi_barcodes_bytes_eq V Z O i hz]

/-- C4 witness: a concrete undecodable byte stream errors with
`invalidImage`; a concrete decodable frame whose symbol payloads are
valid UTF-8 returns its detection result. -/
theorem c4_witness :
    scanE Vnone Zok idOrder 0 = Except.error PyFatal.invalidImage ∧
    scanE Vwhole Zok idOrder 0 = Except.ok (detect_multi_barcodes Vwhole idOrder 0) :=
  ⟨(c4_scan_outcomes Vnone Zok idOrder 0).1 rfl,
   (c4_scan_outcomes Vwhole Zok idOrder 0).2 (fun _ => rfl) 0 rfl⟩

/-- C4 counterexample: a raster-decodable frame (`imdecode` succeeds)
carrying a symbol whose payload is the byte `0xFF`, which is not valid
UTF-8: `b.data.decode("utf-8")` at line 297 raises UnicodeDecodeError and
the call fails instead of returning a `ScanResult`, refuting "never
raises on a raster-decodable input". -/
theorem c4_counterexample :
    Vbinary.imdecode 0 = some 0 ∧
    Zbad.utf8 [255] = none ∧
    scanE Vbinary Zbad idOrder 0 = Except.error PyFatal.unicodeDecodeError :=
  ⟨rfl, rfl, rfl⟩

/-- C5: scanning is deterministic: byte-identical inputs under the same
oracle and the same (per-process) set-enumeration order produce identical
results, same strings in the same order. -/
theorem c5_deterministic {B I : Type} (V : Vision B I) (O : SetOrder) (b1 b2 : B)
    (h : b1 = b2) : scan V O b1 = scan V O b2 := by
  rw [h]

/-- C5 witness: the concrete double invocation. -/
theorem c5_witness : scan Vwhole idOrder 0 = scan Vwhole idOrder 0 :=
  c5_deterministic Vwhole idOrder 0 0 rfl

/-- C6: rotation invariance of the angle sweep.  If `img2` behaves toward
the decoder as the 90-degree-rotated copy of `img1` (decoding `img2`
rotated by `a` equals decoding `img1` rotated by `a + 90` modulo 360, for
every sweep angle), then the sweep of `try_decode_region` collects exactly
the same payloads from both, because the ten-degree sweep containing
{0, 90, 180, 270} is closed under shifting by 90 degrees. -/
theorem c6_rotation_invariance {B I : Type} (V : Vision B I) (O : SetOrder) (img1 img2 : I)
    (h : ∀ a ∈ sweepAngles, decode_zbar_multi V (rotate_image V img2 a) =
      decode_zbar_multi V (rotate_image V img1 ((a + 90) % 360))) :
    ∀ y, y ∈ try_decode_region V O img2 sweepAngles ↔
      y ∈ try_decode_region V O img1 sweepAngles := by
  intro y
  rw [mem_try_decode_region, mem_try_decode_region]
  constructor
  · rintro ⟨a, ha, hy⟩
    exact ⟨(a + 90) % 360, sweep_closed a ha, by rw [← h a ha]; exact hy⟩
  · rintro ⟨b, hb, hy⟩
    obtain ⟨a, ha, hab⟩ := sweep_surj b hb
    exact ⟨a, ha, by rw [h a ha, hab]; exact hy⟩

/-- C6 witness: in the concrete orientation model, image `90` (the rotated
copy of image `0`) yields the code `AZT2002` exactly as image `0` does. -/
theorem c6_witness :
    ("AZT2002" ∈ try_decode_region Vrot idOrder 90 sweepAngles ↔
      "AZT2002" ∈ try_decode_region Vrot idOrder 0 sweepAngles) ∧
    "AZT2002" ∈ try_decode_region Vrot idOrder 90 sweepAngles :=
  ⟨c6_rotation_invariance Vrot idOrder 0 90 (by decide) "AZT2002", by decide⟩

/-- C7: whole-image decoding is never skipped and the result is the union
of both contributions: membership in the scan result is exactly "passes
the filter and comes from a surviving region or from the whole image",
and when the region locator finds zero regions the result is still
exactly the filtered whole-image contribution. -/
theorem c7_whole_image_always {B I : Type} (V : Vision B I) (O : SetOrder) (np_img : I)
    (y : String) :
    (y ∈ detect_multi_barcodes V O np_img ↔
      is_our_barcode y = true ∧ (regionHit V np_img y ∨ wholeHit V np_img y)) ∧
    (contoursOf V np_img = [] →
      (y ∈ detect_multi_barcodes V O np_img ↔ is_our_barcode y = true ∧ wholeHit V np_img y)) := by
  refine ⟨mem_detect_multi_barcodes V O np_img y, fun h => ?_⟩
  rw [mem_detect_multi_barcodes]
  constructor
  · rintro ⟨hok, hreg | hwhole⟩
    · rcases hreg with ⟨r, hr, _⟩
      rw [h] at hr
      exact absurd hr (List.not_mem_nil r)
    · exact ⟨hok, hwhole⟩
  · rintro ⟨hok, hwhole⟩
    exact ⟨hok, Or.inr hwhole⟩

/-- C7 witness: a concrete frame with zero regions whose whole-image pass
still contributes `AZT1`. -/
theorem c7_witness :
    ("AZT1" ∈ detect_multi_barcodes Vwhole idOrder 0 ↔
      is_our_barcode "AZT1" = true ∧ wholeHit Vwhole 0 "AZT1") ∧
    "AZT1" ∈ detect_multi_barcodes Vwhole idOrder 0 :=
  ⟨(c7_whole_image_always Vwhole idOrder 0 "AZT1").2 rfl, by decide⟩

/-- C8: the scan result never contains duplicate strings, whatever the
oracle, the frame and the set-enumeration order: the same code decoded
from overlapping regions, from a region and the whole image, or at
several angles appears exactly once. -/
theorem c8_no_duplicates {B I : Type} (V : Vision B I) (O : SetOrder) (np_img : I) :
    (detect_multi_barcodes V O np_img).Nodup :=
  nodup_detect_multi_barcodes V O np_img

/-- C9 (amended): the size gate keeps a component only when its bounding
box has width strictly greater than 20 px AND height strictly greater
than 20 px (not the spec's ~20 x ~15 px), and only the surviving boxes
are cropped and passed to the decoder: the pipeline equals itself run
over the gate-filtered contour list. -/
theorem c9_size_gate {B I : Type} (V : Vision B I) (O : SetOrder) (np_img : I) :
    detect_multi_barcodes V O np_img =
      O.enum (addAccepted
        (((contoursOf V np_img).filter region_survives).foldl
          (fun found r =>
            addAccepted found (try_decode_region V O (V.crop (preBrightened V np_img) r) sweepAngles)) [])
        (try_decode_region V O (preBrightened V np_img) sweepAngles)) := by
  simp only [detect_multi_barcodes]
  rw [region_foldl_filter]

/-- C9 counterexample: a frame whose only blob has a 30 x 16 bounding
box.  Per the claim's thresholds (width >= ~20, height >= ~15) the box
survives and its crop, which decodes to `AZT9`, reaches the decoder, so
`AZT9` would be returned; the code's gate `w>20 and h>20` discards it
(16 <= 20) and the scan result is empty. -/
theorem c9_counterexample :
    spec_min_region_keep ⟨0, 0, 30, 16⟩ = true ∧
    region_survives ⟨0, 0, 30, 16⟩ = false ∧
    try_decode_region Vsmall idOrder (Vsmall.crop 0 ⟨0, 0, 30, 16⟩) sweepAngles = ["AZT9"] ∧
    detect_multi_barcodes Vsmall idOrder 0 = [] := by decide

/-- C10: every string in the list returned by the detection pipeline
matches the hard-coded pattern (uppercase `AZT` followed by at least one
digit); the filter applies to region-based and whole-image payloads alike
and the pipeline takes no argument that could disable it. -/
theorem c10_every_result_matches {B I : Type} (V : Vision B I) (O : SetOrder) (np_img : I)
    (y : String) (hy : y ∈ detect_multi_barcodes V O np_img) :
    is_our_barcode y = true :=
  ((mem_detect_multi_barcodes V O np_img y).mp hy).1

/-- C10 witness: a concrete member of a concrete scan result matches the
pattern. -/
theorem c10_witness : is_our_barcode "AZT1" = true :=
  c10_every_result_matches Vwhole idOrder 0 "AZT1" (by decide)
